import Mathlib

/-!
Verification of the Account REST microservice
(`src/service/routes.py` plus the Account model it delegates to).

The HTTP layer is embedded shallowly: a request handler is a pure function
from its inputs (path id, decoded JSON body, Content-Type header) and the
current store state to a `Response` paired with the next store state.
JSON decoding itself is out of scope (the framework performs it); handlers
receive the decoded value.
-/

namespace AccountService

/-- A decoded JSON value, as handed to the handlers by the framework. -/
inductive Json where
  | str : String → Json
  | num : Int → Json
  | bool : Bool → Json
  | null : Json
  | arr : List Json → Json
  | obj : List (String × Json) → Json
deriving Repr

/-- Key lookup in a decoded JSON object (first binding wins, as in a dict). -/
def jlookup (l : List (String × Json)) (k : String) : Option Json :=
  match l with
  | [] => none
  | (k2, v) :: rest => if k2 = k then some v else jlookup rest k

/-- Does a JSON object carry the key `k`? -/
def hasKey (l : List (String × Json)) (k : String) : Bool :=
  (jlookup l k).isSome

/-- `true` iff the JSON value is an object carrying key `k`. -/
def Json.objHasKey : Json → String → Bool
  | Json.obj l, k => hasKey l k
  | _, _ => false

/-- Modelled from the spec: the mutable attributes of an Account record from
the missing `service/models.py` — `name`, `email`, `address`, `phone_number`
required on create/update, `date_joined` defaulted. Values are stored as the
decoded JSON values assigned by `deserialize`. -/
structure AccountFields where
  name : Json
  email : Json
  address : Json
  phone_number : Json
  date_joined : Json
deriving Repr

/-- A persisted Account row: store-assigned integer `id` plus the fields. -/
structure Account where
  id : Nat
  fields : AccountFields
deriving Repr

/-- Modelled from the spec: `Account.serialize()` of the missing
`service/models.py` — a mapping from field name to value for all six
attributes; never fails, no side effects. -/
def Account.serialize (a : Account) : List (String × Json) :=
  [("id", Json.num a.id),
   ("name", a.fields.name),
   ("email", a.fields.email),
   ("address", a.fields.address),
   ("phone_number", a.fields.phone_number),
   ("date_joined", a.fields.date_joined)]

/-- Modelled from the spec: `Account.deserialize(payload)` of the missing
`service/models.py` — populates the in-memory record from a mapping; fails
with an error naming the missing field when any of `name`, `email`,
`address`, `phone_number` is absent; `date_joined`, if present, is taken
from the payload, otherwise left at its current (default) value;
unrecognized keys are ignored; the store is not touched. -/
def AccountFields.deserialize (cur : AccountFields) (payload : List (String × Json)) :
    Except String AccountFields :=
  match jlookup payload "name" with
  | none => Except.error "missing name"
  | some n =>
    match jlookup payload "email" with
    | none => Except.error "missing email"
    | some e =>
      match jlookup payload "address" with
      | none => Except.error "missing address"
      | some ad =>
        match jlookup payload "phone_number" with
        | none => Except.error "missing phone_number"
        | some ph =>
          Except.ok
            { name := n, email := e, address := ad, phone_number := ph,
              date_joined := (jlookup payload "date_joined").getD cur.date_joined }

/-- All four required fields are present in the payload. -/
def hasAllRequired (p : List (String × Json)) : Bool :=
  hasKey p "name" && hasKey p "email" && hasKey p "address" && hasKey p "phone_number"

/-- The record `deserialize` produces on success: required fields taken from
the payload, `date_joined` from the payload when present, else kept. -/
def fieldsFrom (cur : AccountFields) (p : List (String × Json)) : AccountFields :=
  { name := (jlookup p "name").getD cur.name,
    email := (jlookup p "email").getD cur.email,
    address := (jlookup p "address").getD cur.address,
    phone_number := (jlookup p "phone_number").getD cur.phone_number,
    date_joined := (jlookup p "date_joined").getD cur.date_joined }

/-- Modelled from the spec: the relational store backing the missing
`service/models.py` — an ordered sequence of rows plus the next id the
store will assign. -/
structure Store where
  rows : List Account
  nextId : Nat
deriving Repr

/-- Modelled from the spec: `Account.find(id)` — the record matching `id`,
or an absence signal if none exists. -/
def Store.find (st : Store) (i : Nat) : Option Account :=
  st.rows.find? (fun a => a.id == i)

/-- Modelled from the spec: `Account.all()` — the full ordered sequence of
records. -/
def Store.all (st : Store) : List Account :=
  st.rows

/-- Modelled from the spec: `account.create()` — inserts a new row for the
in-memory record; the store assigns and back-fills `id`. -/
def Store.createRow (st : Store) (f : AccountFields) : Account × Store :=
  let a : Account := ⟨st.nextId, f⟩
  (a, ⟨st.rows ++ [a], st.nextId + 1⟩)

/-- Modelled from the spec: `account.update()` — persists the in-memory
field values to the existing row matching `id`. -/
def Store.updateRow (st : Store) (i : Nat) (f : AccountFields) : Store :=
  ⟨st.rows.map (fun a => if a.id == i then ⟨a.id, f⟩ else a), st.nextId⟩

/-- Modelled from the spec: `account.delete()` — removes the row matching
`id`. -/
def Store.deleteRow (st : Store) (i : Nat) : Store :=
  ⟨st.rows.filter (fun a => a.id != i), st.nextId⟩

/-- An HTTP response: status code, decoded JSON body, optional Location
header. -/
structure Response where
  status : Nat
  body : Json
  location : Option String
deriving Repr

/-- The one-key error body `{"error": msg}` used by the failure branches. -/
def errBody (msg : String) : Json :=
  Json.obj [("error", Json.str msg)]

/-- `health` (routes.py lines 17-20): always `200 {"status": "OK"}`. -/
def health (st : Store) : Response × Store :=
  (⟨200, Json.obj [("status", Json.str "OK")], none⟩, st)

/-- `index` (routes.py lines 26-36): always `200` with service name and
version. -/
def index (st : Store) : Response × Store :=
  (⟨200,
    Json.obj [("name", Json.str "Account REST API Service"),
              ("version", Json.str "1.0")], none⟩, st)

/-- `check_content_type` (routes.py lines 155-164): passes (returns no
response) iff the header is present, truthy (non-empty) and equals the
expected media type exactly; otherwise aborts with 415 and a descriptive
message. -/
def check_content_type (content_type : Option String) (media_type : String) :
    Option Response :=
  match content_type with
  | some ct =>
      if ct ≠ "" ∧ ct = media_type then none
      else some ⟨415, errBody ("Content-Type must be " ++ media_type), none⟩
  | none => some ⟨415, errBody ("Content-Type must be " ++ media_type), none⟩

/-- `create_accounts` (routes.py lines 42-59): content-type guard, then
deserialize into a fresh record (`newRecord`, whose `date_joined` holds the
creation-date default), then create; on success `201`, serialized record,
Location header `/` (placeholder). The `400` on deserialization failure is
modelled from the spec: the framework error-handler module that converts
the deserialization error into a response is not under `src/`. -/
def create_accounts (content_type : Option String) (payload : List (String × Json))
    (newRecord : AccountFields) (st : Store) : Response × Store :=
  match check_content_type content_type "application/json" with
  | some r => (r, st)
  | none =>
    match newRecord.deserialize payload with
    | Except.error e => (⟨400, errBody e, none⟩, st)
    | Except.ok f =>
      let (a, st2) := st.createRow f
      (⟨201, Json.obj a.serialize, some "/"⟩, st2)

/-- `read_accounts` (routes.py lines 65-79): list all; `200` with the array
of serialized records when non-empty, else `404 {"error": "accounts not
found"}`. -/
def read_accounts (st : Store) : Response × Store :=
  let accounts := st.all
  if accounts.isEmpty then
    (⟨404, errBody "accounts not found", none⟩, st)
  else
    (⟨200, Json.arr (accounts.map (fun a => Json.obj a.serialize)), none⟩, st)

/-- `read_account` (routes.py lines 85-98): find by id; `200` serialized
record, else `404 {"error": "account not found"}`. -/
def read_account (i : Nat) (st : Store) : Response × Store :=
  match st.find i with
  | some a => (⟨200, Json.obj a.serialize, none⟩, st)
  | none => (⟨404, errBody "account not found", none⟩, st)

/-- `not request.get_json()`: the decoded body is absent or an empty
object, hence falsy in the handler's emptiness test. -/
def jsonFalsy : Option (List (String × Json)) → Bool
  | none => true
  | some l => l.isEmpty

/-- `update_account` (routes.py lines 104-127): empty/absent body → `405`
with body `{"error": "id not found"}`; unknown id → `404` with the same
body; deserialization failure → `409 {"error": "attribute error",
"details": ...}`; otherwise update the row and return `200` with the
updated serialization. -/
def update_account (i : Nat) (body : Option (List (String × Json))) (st : Store) :
    Response × Store :=
  if jsonFalsy body then
    (⟨405, errBody "id not found", none⟩, st)
  else
    let payload := body.getD []
    match st.find i with
    | none => (⟨404, errBody "id not found", none⟩, st)
    | some ac =>
      match ac.fields.deserialize payload with
      | Except.error e =>
          (⟨409, Json.obj [("error", Json.str "attribute error"),
                           ("details", Json.str e)], none⟩, st)
      | Except.ok f =>
          (⟨200, Json.obj (Account.mk ac.id f).serialize, none⟩,
           st.updateRow i f)

/-- `delete_account` (routes.py lines 133-149): unknown id → `404
{"error": "id not found"}`; otherwise delete the row and return `204` with
an empty object body. -/
def delete_account (i : Nat) (st : Store) : Response × Store :=
  match st.find i with
  | none => (⟨404, errBody "id not found", none⟩, st)
  | some _ => (⟨204, Json.obj [], none⟩, st.deleteRow i)

/-- A concrete set of field values, used by the witnesses. -/
def sampleFields : AccountFields :=
  { name := Json.str "alice", email := Json.str "alice@example.com",
    address := Json.str "1 Main St", phone_number := Json.str "555-0101",
    date_joined := Json.str "2020-01-01" }

/-- A concrete store holding one account with id 1, used by the witnesses. -/
def sampleStore : Store :=
  ⟨[⟨1, sampleFields⟩], 2⟩

/-- A concrete full payload (all required fields present). -/
def samplePayload : List (String × Json) :=
  [("name", Json.str "benjamin"), ("email", Json.str "benjamin@gmail.com"),
   ("address", Json.str "2 Oak Ave"), ("phone_number", Json.str "555-0202")]

/-! ### Helper lemmas -/

/-- A payload missing some required field makes `deserialize` fail. -/
theorem deserialize_error_of_missing (cur : AccountFields) (p : List (String × Json))
    (h : hasAllRequired p = false) :
    ∃ e, cur.deserialize p = Except.error e := by
  cases hn : jlookup p "name" with
  | none => exact ⟨"missing name", by simp [AccountFields.deserialize, hn]⟩
  | some n =>
    cases he : jlookup p "email" with
    | none => exact ⟨"missing email", by simp [AccountFields.deserialize, hn, he]⟩
    | some e =>
      cases ha : jlookup p "address" with
      | none => exact ⟨"missing address", by simp [AccountFields.deserialize, hn, he, ha]⟩
      | some a =>
        cases hp : jlookup p "phone_number" with
        | none =>
          exact ⟨"missing phone_number",
            by simp [AccountFields.deserialize, hn, he, ha, hp]⟩
        | some ph =>
          exact absurd h (by simp [hasAllRequired, hasKey, hn, he, ha, hp])

/-- A payload carrying all required fields makes `deserialize` succeed with
exactly the fields read off the payload. -/
theorem deserialize_ok_of_all (cur : AccountFields) (p : List (String × Json))
    (h : hasAllRequired p = true) :
    cur.deserialize p = Except.ok (fieldsFrom cur p) := by
  simp only [hasAllRequired, hasKey, Bool.and_eq_true, Option.isSome_iff_exists] at h
  obtain ⟨⟨⟨⟨n, hn⟩, e, he⟩, a, ha⟩, ph, hp⟩ := h
  simp [AccountFields.deserialize, fieldsFrom, hn, he, ha, hp]

/-- A payload carrying all required fields is non-empty. -/
theorem ne_nil_of_required (p : List (String × Json))
    (h : hasAllRequired p = true) : p ≠ [] := by
  intro hc
  subst hc
  simp [hasAllRequired, hasKey, jlookup] at h

/-- Updating the row with id `i` makes the updated fields visible to a
subsequent lookup of `i`. -/
theorem find_map_update (rows : List Account) (i : Nat) (f : AccountFields)
    (h : (rows.find? (fun a => a.id == i)).isSome = true) :
    (rows.map (fun a => if a.id == i then ⟨a.id, f⟩ else a)).find?
      (fun a => a.id == i) = some ⟨i, f⟩ := by
  induction rows with
  | nil => simp at h
  | cons x xs ih =>
    by_cases hx : x.id = i
    · simp [hx]
    · simp only [List.map_cons]
      rw [if_neg (by simp [hx])]
      rw [List.find?_cons_of_neg _ (by simp [hx])]
      rw [List.find?_cons_of_neg _ (by simp [hx])] at h
      exact ih h

/-- After filtering out the rows with id `i`, a lookup of `i` finds
nothing. -/
theorem find_filter_delete (rows : List Account) (i : Nat) :
    (rows.filter (fun a => a.id != i)).find? (fun a => a.id == i) = none := by
  induction rows with
  | nil => rfl
  | cons x xs ih =>
    by_cases hx : x.id = i
    · simp [List.filter_cons, hx, ih]
    · rw [List.filter_cons, if_pos (by simp [hx])]
      rw [List.find?_cons_of_neg _ (by simp [hx])]
      exact ih

/-- Store-level form of `find_map_update`. -/
theorem Store.find_update (st : Store) (i : Nat) (f : AccountFields) (ac : Account)
    (h : st.find i = some ac) : (st.updateRow i f).find i = some ⟨i, f⟩ := by
  unfold Store.find at h ⊢
  unfold Store.updateRow
  exact find_map_update st.rows i f (by simp [h])

/-- Store-level form of `find_filter_delete`. -/
theorem Store.find_delete (st : Store) (i : Nat) :
    (st.deleteRow i).find i = none :=
  find_filter_delete st.rows i

/-! ### Claim theorems -/

/-- C1: for every stored account with id `i`, a PUT to `/accounts/i` whose
non-empty JSON payload is missing a required field makes `deserialize` fail
and the handler return 409 with a JSON body carrying an `error` key and a
`details` entry, without calling `update()`, so the store is unchanged. -/
theorem c1_update_missing_field_conflict (i : Nat) (st : Store) (ac : Account)
    (p : List (String × Json))
    (hfind : st.find i = some ac) (hne : p ≠ []) (hmiss : hasAllRequired p = false) :
    (update_account i (some p) st).1.status = 409 ∧
    Json.objHasKey (update_account i (some p) st).1.body "error" = true ∧
    Json.objHasKey (update_account i (some p) st).1.body "details" = true ∧
    (update_account i (some p) st).2 = st := by
  obtain ⟨e, he⟩ := deserialize_error_of_missing ac.fields p hmiss
  have hpe : p.isEmpty = false := by cases p <;> simp_all
  simp [update_account, jsonFalsy, hpe, hfind, he, Json.objHasKey, hasKey, jlookup]

/-- C1 witness: PUT of `{"city": "goda"}` to the stored id 1. -/
theorem c1_witness :
    (update_account 1 (some [("city", Json.str "goda")]) sampleStore).1.status = 409 ∧
    Json.objHasKey (update_account 1 (some [("city", Json.str "goda")]) sampleStore).1.body
      "error" = true ∧
    Json.objHasKey (update_account 1 (some [("city", Json.str "goda")]) sampleStore).1.body
      "details" = true ∧
    (update_account 1 (some [("city", Json.str "goda")]) sampleStore).2 = sampleStore :=
  c1_update_missing_field_conflict 1 sampleStore ⟨1, sampleFields⟩
    [("city", Json.str "goda")] rfl (by simp) rfl

/-- C2: the content-type guard of the create handler passes exactly when the
header is present and equals `application/json` character-for-character; in
every other case the POST answers 415 and leaves the store unchanged. -/
theorem c2_content_type_guard_exact (ct : Option String) (p : List (String × Json))
    (nr : AccountFields) (st : Store) :
    (check_content_type ct "application/json" = none ↔ ct = some "application/json") ∧
    (ct ≠ some "application/json" →
      (create_accounts ct p nr st).1.status = 415 ∧
      (create_accounts ct p nr st).2 = st) := by
  have hguard : ∀ s : String, (s ≠ "" ∧ s = "application/json") ↔ s = "application/json" := by
    intro s
    constructor
    · exact fun h => h.2
    · intro h
      subst h
      exact ⟨by decide, rfl⟩
  constructor
  · cases ct with
    | none => simp [check_content_type]
    | some s => simp [check_content_type, hguard s]
  · intro hne
    cases ct with
    | none => simp [create_accounts, check_content_type]
    | some s =>
      have hs : ¬(s ≠ "" ∧ s = "application/json") := by
        intro hcon
        exact hne (by rw [hcon.2])
      simp [create_accounts, check_content_type, hs]

/-- C2 witness: a POST with Content-Type `test/html` and a valid payload is
refused with 415 and creates nothing. -/
theorem c2_witness :
    (create_accounts (some "test/html") samplePayload sampleFields sampleStore).1.status = 415 ∧
    (create_accounts (some "test/html") samplePayload sampleFields sampleStore).2 = sampleStore :=
  (c2_content_type_guard_exact (some "test/html") samplePayload sampleFields sampleStore).2
    (by simp)

/-- C3: a POST with Content-Type `application/json` and a payload carrying
all required fields answers 201 with the serialization of the created
account (payload fields plus the store-assigned id) and the placeholder
Location header `/`, and appends exactly that row to the store. -/
theorem c3_create_success (p : List (String × Json)) (nr : AccountFields) (st : Store)
    (hreq : hasAllRequired p = true) :
    (create_accounts (some "application/json") p nr st).1.status = 201 ∧
    (create_accounts (some "application/json") p nr st).1.location = some "/" ∧
    (create_accounts (some "application/json") p nr st).1.body =
      Json.obj (Account.mk st.nextId (fieldsFrom nr p)).serialize ∧
    (create_accounts (some "application/json") p nr st).2 =
      ⟨st.rows ++ [⟨st.nextId, fieldsFrom nr p⟩], st.nextId + 1⟩ := by
  have hde := deserialize_ok_of_all nr p hreq
  have hmt : (("application/json" : String) ≠ "" ∧
      ("application/json" : String) = "application/json") := ⟨by decide, rfl⟩
  simp [create_accounts, check_content_type, hmt, hde, Store.createRow]

/-- C3 witness: creating from the sample payload on the sample store. -/
theorem c3_witness :
    (create_accounts (some "application/json") samplePayload sampleFields sampleStore).1.status
      = 201 ∧
    (create_accounts (some "application/json") samplePayload sampleFields
      sampleStore).1.location = some "/" ∧
    (create_accounts (some "application/json") samplePayload sampleFields sampleStore).1.body =
      Json.obj (Account.mk sampleStore.nextId (fieldsFrom sampleFields samplePayload)).serialize ∧
    (create_accounts (some "application/json") samplePayload sampleFields sampleStore).2 =
      ⟨sampleStore.rows ++ [⟨sampleStore.nextId, fieldsFrom sampleFields samplePayload⟩],
       sampleStore.nextId + 1⟩ :=
  c3_create_success samplePayload sampleFields sampleStore rfl

/-- C4: a POST with the correct content type whose payload is missing a
required field answers 400 and creates no store row. -/
theorem c4_create_missing_field_bad_request (p : List (String × Json))
    (nr : AccountFields) (st : Store) (hmiss : hasAllRequired p = false) :
    (create_accounts (some "application/json") p nr st).1.status = 400 ∧
    (create_accounts (some "application/json") p nr st).2 = st := by
  obtain ⟨e, he⟩ := deserialize_error_of_missing nr p hmiss
  have hmt : (("application/json" : String) ≠ "" ∧
      ("application/json" : String) = "application/json") := ⟨by decide, rfl⟩
  simp [create_accounts, check_content_type, hmt, he]

/-- C4 witness: POST of `{"name": "not enough data"}`. -/
theorem c4_witness :
    (create_accounts (some "application/json") [("name", Json.str "not enough data")]
      sampleFields sampleStore).1.status = 400 ∧
    (create_accounts (some "application/json") [("name", Json.str "not enough data")]
      sampleFields sampleStore).2 = sampleStore :=
  c4_create_missing_field_bad_request [("name", Json.str "not enough data")]
    sampleFields sampleStore rfl

/-- C5: GET `/accounts` answers 200 with the array of every stored account's
serialization when the store is non-empty, and 404 with
`{"error": "accounts not found"}` when it is empty; the store is returned
unchanged in both cases. -/
theorem c5_list_accounts (st : Store) :
    (st.rows ≠ [] →
      read_accounts st =
        (⟨200, Json.arr (st.rows.map (fun a => Json.obj a.serialize)), none⟩, st)) ∧
    (st.rows = [] →
      read_accounts st = (⟨404, errBody "accounts not found", none⟩, st)) := by
  constructor
  · intro h
    have hpe : st.rows.isEmpty = false := by
      cases hr : st.rows <;> simp_all
    simp [read_accounts, Store.all, hpe]
  · intro h
    simp [read_accounts, Store.all, h]

/-- C5 witness: the sample store lists its one account; the empty store
answers 404. -/
theorem c5_witness :
    read_accounts sampleStore =
      (⟨200, Json.arr (sampleStore.rows.map (fun a => Json.obj a.serialize)), none⟩,
       sampleStore) ∧
    read_accounts ⟨[], 1⟩ = (⟨404, errBody "accounts not found", none⟩, ⟨[], 1⟩) :=
  ⟨(c5_list_accounts sampleStore).1 (by simp [sampleStore]),
   (c5_list_accounts ⟨[], 1⟩).2 rfl⟩

/-- C6: a PUT to a stored id with a payload carrying all required fields
answers 200 with the updated serialization, the payload values replace the
stored ones, and the change is visible to a subsequent `find`. -/
theorem c6_update_success (i : Nat) (st : Store) (ac : Account)
    (p : List (String × Json))
    (hfind : st.find i = some ac) (hreq : hasAllRequired p = true) :
    (update_account i (some p) st).1 =
      ⟨200, Json.obj (Account.mk ac.id (fieldsFrom ac.fields p)).serialize, none⟩ ∧
    (update_account i (some p) st).2.find i = some ⟨i, fieldsFrom ac.fields p⟩ := by
  have hpe : p.isEmpty = false := by
    have := ne_nil_of_required p hreq
    cases p <;> simp_all
  have hde := deserialize_ok_of_all ac.fields p hreq
  constructor
  · simp [update_account, jsonFalsy, hpe, hfind, hde]
  · simp only [update_account, jsonFalsy, hpe, hfind, hde, Bool.false_eq_true,
      if_false, Option.getD_some]
    exact Store.find_update st i (fieldsFrom ac.fields p) ac hfind

/-- C6 witness: updating the sample store's account 1 with the full sample
payload. -/
theorem c6_witness :
    (update_account 1 (some samplePayload) sampleStore).1 =
      ⟨200, Json.obj (Account.mk 1 (fieldsFrom sampleFields samplePayload)).serialize, none⟩ ∧
    (update_account 1 (some samplePayload) sampleStore).2.find 1 =
      some ⟨1, fieldsFrom sampleFields samplePayload⟩ :=
  c6_update_success 1 sampleStore ⟨1, sampleFields⟩ samplePayload rfl rfl

/-- C7: DELETE of a stored id answers 204 with an empty object body and the
record is subsequently absent from the store; DELETE of an unknown id
answers 404 with `{"error": "id not found"}` and leaves the store
unchanged. -/
theorem c7_delete_account (i : Nat) (st : Store) :
    (∀ ac, st.find i = some ac →
      (delete_account i st).1 = ⟨204, Json.obj [], none⟩ ∧
      (delete_account i st).2.find i = none) ∧
    (st.find i = none →
      delete_account i st = (⟨404, errBody "id not found", none⟩, st)) := by
  constructor
  · intro ac hfind
    refine ⟨by simp [delete_account, hfind], ?_⟩
    simp only [delete_account, hfind]
    exact Store.find_delete st i
  · intro hfind
    simp [delete_account, hfind]

/-- C7 witness: deleting id 1 from the sample store; deleting id 22. -/
theorem c7_witness :
    ((delete_account 1 sampleStore).1 = ⟨204, Json.obj [], none⟩ ∧
     (delete_account 1 sampleStore).2.find 1 = none) ∧
    delete_account 22 sampleStore = (⟨404, errBody "id not found", none⟩, sampleStore) :=
  ⟨(c7_delete_account 1 sampleStore).1 ⟨1, sampleFields⟩ rfl,
   (c7_delete_account 22 sampleStore).2 rfl⟩

/-- C8: for every id, a PUT whose JSON body is empty or absent answers 405
and returns the store untouched — the emptiness test precedes the `find`
lookup and every store access. -/
theorem c8_update_empty_body (i : Nat) (body : Option (List (String × Json)))
    (st : Store) (h : body = none ∨ body = some []) :
    update_account i body st = (⟨405, errBody "id not found", none⟩, st) := by
  rcases h with h | h <;> subst h <;> rfl

/-- C8 witness: PUT of `{}` to id 0 (stored or not is irrelevant). -/
theorem c8_witness :
    update_account 0 (some []) sampleStore =
      (⟨405, errBody "id not found", none⟩, sampleStore) :=
  c8_update_empty_body 0 (some []) sampleStore (Or.inr rfl)

/-- C9: the read-only handlers — health, index, list and read-by-id — never
change the store. -/
theorem c9_read_handlers_pure (st : Store) (i : Nat) :
    (health st).2 = st ∧ (index st).2 = st ∧ (read_accounts st).2 = st ∧
    (read_account i st).2 = st := by
  refine ⟨rfl, rfl, ?_, ?_⟩
  · cases h : st.rows.isEmpty <;> simp [read_accounts, Store.all, h]
  · unfold read_account
    cases st.find i <;> rfl

/-- C10: the 405 answer for an empty-body PUT carries the JSON body
`{"error": "id not found"}` — the very body used for the 404 answers of
update (unknown id, non-empty payload) and delete (unknown id). -/
theorem c10_shared_error_message (i j k : Nat) (st st2 st3 : Store)
    (q : List (String × Json))
    (hj : st2.find j = none) (hk : st3.find k = none) (hq : q ≠ []) :
    (update_account i (some []) st).1 = ⟨405, errBody "id not found", none⟩ ∧
    (delete_account j st2).1 = ⟨404, errBody "id not found", none⟩ ∧
    (update_account k (some q) st3).1 = ⟨404, errBody "id not found", none⟩ := by
  refine ⟨rfl, ?_, ?_⟩
  · simp [delete_account, hj]
  · have hpe : q.isEmpty = false := by cases q <;> simp_all
    simp [update_account, jsonFalsy, hpe, hk]

/-- C10 witness: the three responses coincide at concrete inputs. -/
theorem c10_witness :
    (update_account 0 (some []) sampleStore).1 = ⟨405, errBody "id not found", none⟩ ∧
    (delete_account 22 sampleStore).1 = ⟨404, errBody "id not found", none⟩ ∧
    (update_account 22 (some [("city", Json.str "goda")]) sampleStore).1 =
      ⟨404, errBody "id not found", none⟩ :=
  c10_shared_error_message 0 22 22 sampleStore sampleStore sampleStore
    [("city", Json.str "goda")] rfl rfl (by simp)

end AccountService
